import Mathlib

/-!
Verification of the builtwith-api client library (src/index.js).

The library builds request URLs for the BuiltWith HTTP API and normalizes
responses according to a configured response format.  We embed the pure
parts of the code (URL construction, constructor validation, and the
response-format branching applied to a received body) as Lean functions.

JavaScript scalar values that can appear as query-parameter values are
modelled by `JSValue`; `undefined` is an explicit constructor because the
code's filter tests `value === undefined`.  The external `JSON.parse`
function is not part of the repository, so response-handling functions are
parametrized by an arbitrary parse function `String → Option J`.
-/

/-- Model of the JavaScript scalar values that flow into query parameters
in this library: `undefined`, strings, booleans, and numbers. -/
inductive JSValue where
  | undef : JSValue
  | str : String → JSValue
  | bool : Bool → JSValue
  | num : Int → JSValue
deriving DecidableEq, Repr

/-- Template-literal interpolation of a value, as in `` `${key}=${value}` ``. -/
def jsToString : JSValue → String
  | JSValue.undef => "undefined"
  | JSValue.str s => s
  | JSValue.bool b => if b then "true" else "false"
  | JSValue.num n => toString n

/-- Model of lodash `_.get(obj, key, default)`: returns the value stored at
`key` unless it is missing or `undefined`, in which case the default is
returned.  A JavaScript object is modelled as an insertion-ordered
association list. -/
def lodashGet (obj : List (String × JSValue)) (key : String) (dflt : JSValue) : JSValue :=
  match obj.find? (fun p => p.1 == key) with
  | some p => if p.2 == JSValue.undef then dflt else p.2
  | none => dflt

/-- The `VALID_RESPONSE_TYPES` object's values, in declaration order. -/
def VALID_RESPONSE_TYPES : List String := ["xml", "json", "txt"]

/-- JavaScript `Array.prototype.join` with separator `&`. -/
def joinAmp : List String → String
  | [] => ""
  | [s] => s
  | s :: rest => s ++ "&" ++ joinAmp rest

/-- Embedding of `paramsObjToQueryString` (src/index.js lines 14-25):
take the entries of the params object, drop those whose value is
`undefined`, render each remaining entry as `key=value`, and join with
`&`. -/
def paramsObjToQueryString (params : List (String × JSValue)) : String :=
  joinAmp
    ((params.filter (fun p => !(p.2 == JSValue.undef))).map
      (fun p => p.1 ++ "=" ++ jsToString p.2))

/-- Embedding of `constructBuiltWithURL` (src/index.js lines 39-51).  The
closure variables `responseFormat` and `apiKey` are passed explicitly.
Note the guard is lodash `_.isEmpty` on the params object BEFORE the
`undefined` filter is applied. -/
def constructBuiltWithURL (responseFormat apiKey : String) (apiName : String)
    (requestParams : List (String × JSValue)) (subdomain : String) : String :=
  let bwURL := "https://" ++ subdomain ++ ".builtwith.com/" ++ apiName ++ "/api."
      ++ responseFormat ++ "?KEY=" ++ apiKey
  if requestParams.isEmpty then bwURL
  else bwURL ++ "&" ++ paramsObjToQueryString requestParams

/-- The warning printed by the constructor when the format is `txt`. -/
def txtWarning : String :=
  "TXT response format is only supported for the BuiltWith Lists API. See: https://api.builtwith.com/lists-api"

/-- Embedding of the `BuiltWith` constructor's validation and warning logic
(src/index.js lines 28-37).  A thrown `Error` is an `Except.error`; a
successful construction returns the captured `(apiKey, responseFormat)`
pair together with the list of warnings emitted. -/
def BuiltWith (apiKey : String) (moduleParams : List (String × JSValue)) :
    Except String ((String × String) × List String) :=
  let responseFormat := lodashGet moduleParams "responseFormat" JSValue.undef
  if !((VALID_RESPONSE_TYPES.map JSValue.str).contains responseFormat) then
    Except.error ("Invalid 'responseFormat'. Valid format are 'xml', 'txt', and 'json'. You input "
      ++ jsToString responseFormat)
  else if responseFormat == JSValue.str "txt" then
    Except.ok ((apiKey, jsToString responseFormat), [txtWarning])
  else
    Except.ok ((apiKey, jsToString responseFormat), [])

/-- URL built by the `free` method (src/index.js lines 61-66). -/
def freeURL (responseFormat apiKey : String) (url : String) : String :=
  constructBuiltWithURL responseFormat apiKey "free1" [("LOOKUP", JSValue.str url)] "api"

/-- URL built by the `domain` method (src/index.js lines 84-102): the five
optional flags are read with `_.get(params, name, false)`, so each defaults
to `false` when absent or `undefined`. -/
def domainURL (responseFormat apiKey : String) (url : String)
    (params : List (String × JSValue)) : String :=
  let hideAll := lodashGet params "hideAll" (JSValue.bool false)
  let noMetaData := lodashGet params "noMetaData" (JSValue.bool false)
  let noAttributeData := lodashGet params "noAttributeData" (JSValue.bool false)
  let hideDescriptionAndLinks := lodashGet params "hideDescriptionAndLinks" (JSValue.bool false)
  let onlyLiveTechnologies := lodashGet params "onlyLiveTechnologies" (JSValue.bool false)
  constructBuiltWithURL responseFormat apiKey "v14"
    [("LOOKUP", JSValue.str url),
     ("HIDETEXT", hideAll),
     ("HIDEDL", hideDescriptionAndLinks),
     ("LIVEONLY", onlyLiveTechnologies),
     ("NOMETA", noMetaData),
     ("NOATTR", noAttributeData)] "api"

/-- URL built by the `lists` method (src/index.js lines 134-141). -/
def listsURL (responseFormat apiKey : String) (technologies : JSValue)
    (params : List (String × JSValue)) : String :=
  let includeMetaData := lodashGet params "includeMetaData" (JSValue.bool false)
  let offset := lodashGet params "offset" JSValue.undef
  let since := lodashGet params "since" JSValue.undef
  constructBuiltWithURL responseFormat apiKey "lists5"
    [("TECH", technologies),
     ("META", includeMetaData),
     ("OFFSET", offset),
     ("SINCE", since)] "api"

/-- URL built by the `trends` method (src/index.js lines 211-217). -/
def trendsURL (responseFormat apiKey : String) (technology : String)
    (params : List (String × JSValue)) : String :=
  let date := lodashGet params "date" JSValue.undef
  constructBuiltWithURL responseFormat apiKey "trends/v6"
    [("TECH", JSValue.str technology),
     ("DATE", date)] "api"

/-- URL built by the `companyToUrl` method (src/index.js lines 240-249).
Faithful to the source: the `amount` variable is read from the params key
`"noMetaData"`, not `"amount"`. -/
def companyToUrlURL (responseFormat apiKey : String) (companyName : String)
    (params : List (String × JSValue)) : String :=
  let tld := lodashGet params "tld" JSValue.undef
  let amount := lodashGet params "noMetaData" JSValue.undef
  constructBuiltWithURL responseFormat apiKey "ctu1"
    [("COMPANY", JSValue.str companyName),
     ("TLD", tld),
     ("AMOUNT", amount)] "ctu"

/-- A normalized response value: either the raw text body or a parsed JSON
value.  The JSON value type `J` is abstract because `JSON.parse` is the
JavaScript runtime's, not this repository's. -/
inductive ResponseValue (J : Type) where
  | text : String → ResponseValue J
  | json : J → ResponseValue J
deriving DecidableEq, Repr

/-- The warning printed by `lists` and `trends` when a JSON body fails to
parse and the call falls back to the raw text. -/
def jsonFallbackWarning : String :=
  "BuiltWith sent an invalid JSON payload. Falling back to text parsing."

/-- Response handling of the `free` method (src/index.js lines 67-73):
under `xml` the raw text body is returned; otherwise `res.json()` is used,
which rejects when the body is not valid JSON.  The same branch is used by
`domain`, `relationships`, `keywords` and `companyToUrl`. -/
def free_respond {J : Type} (parse : String → Option J) (responseFormat : String)
    (body : String) : Except String (ResponseValue J) :=
  if responseFormat == "xml" then
    Except.ok (ResponseValue.text body)
  else
    match parse body with
    | some j => Except.ok (ResponseValue.json j)
    | none => Except.error "invalid json response body"

/-- Response handling of the `lists` method (src/index.js lines 143-155):
under `txt` or `xml` the raw text body is returned; otherwise the body is
read as text and `JSON.parse` attempted, falling back to the raw text with
a warning when parsing fails.  The second component collects warnings. -/
def lists_respond {J : Type} (parse : String → Option J) (responseFormat : String)
    (body : String) : ResponseValue J × List String :=
  if responseFormat == "txt" || responseFormat == "xml" then
    (ResponseValue.text body, [])
  else
    match parse body with
    | some j => (ResponseValue.json j, [])
    | none => (ResponseValue.text body, [jsonFallbackWarning])

/-- Response handling of the `trends` method (src/index.js lines 219-237):
only `xml` short-circuits to the raw text body; every other format,
including `txt`, goes through the JSON-parse-with-fallback branch. -/
def trends_respond {J : Type} (parse : String → Option J) (responseFormat : String)
    (body : String) : ResponseValue J × List String :=
  if responseFormat == "xml" then
    (ResponseValue.text body, [])
  else
    match parse body with
    | some j => (ResponseValue.json j, [])
    | none => (ResponseValue.text body, [jsonFallbackWarning])

/-- A parse function that fails on every input, usable at concrete bodies
that are not valid JSON (such as the literal text `Error: invalid key`). -/
def noParse : String → Option Nat := fun _ => none

/-- A parse function that succeeds exactly on the two-character body
consisting of an opening and a closing curly brace (the empty JSON object,
which is valid JSON), mirroring `JSON.parse` on that input. -/
def emptyObjectParse : String → Option Nat :=
  fun s => if s == "\x7b\x7d" then some 0 else none

/-- C1 counterexample: `domain("a.com", { hideAll: true })` with apiKey `K`
and format `json` does NOT build the URL claimed by the spec, because the
five optional flags default to `false` and are therefore never dropped from
the query string. -/
theorem domain_hideAll_url_not_spec_url :
    domainURL "json" "K" "a.com" [("hideAll", JSValue.bool true)]
      ≠ "https://api.builtwith.com/v14/api.json?KEY=K&LOOKUP=a.com&HIDETEXT=true" := by
  decide

/-- C1 (amended): `domain("a.com", { hideAll: true })` with apiKey `K` and
format `json` builds the request URL with all six parameters in the
declared order LOOKUP, HIDETEXT, HIDEDL, LIVEONLY, NOMETA, NOATTR; the
five optional flags default to `false` rather than being dropped. -/
theorem domain_hideAll_url_full :
    domainURL "json" "K" "a.com" [("hideAll", JSValue.bool true)]
      = "https://api.builtwith.com/v14/api.json?KEY=K&LOOKUP=a.com&HIDETEXT=true&HIDEDL=false&LIVEONLY=false&NOMETA=false&NOATTR=false" := by
  decide

/-- C3: on a `json` client, a `lists` call whose response body fails JSON
parsing resolves to the raw body string and logs the fallback warning. -/
theorem lists_json_invalid_body_falls_back {J : Type} (parse : String → Option J)
    (body : String) (h : parse body = none) :
    lists_respond parse "json" body
      = (ResponseValue.text body, [jsonFallbackWarning]) := by
  simp [lists_respond, h]

/-- C3 witness: the literal body `Error: invalid key` resolves to itself
with the fallback warning. -/
theorem lists_json_invalid_body_falls_back_witness :
    lists_respond noParse "json" "Error: invalid key"
      = (ResponseValue.text "Error: invalid key", [jsonFallbackWarning]) :=
  lists_json_invalid_body_falls_back noParse "Error: invalid key" rfl

/-- C4: on a `json` client, a `free` call whose response body fails JSON
parsing rejects with a parse error (the Category A branch calls
`res.json()`, which rejects on invalid JSON). -/
theorem free_json_invalid_body_rejects {J : Type} (parse : String → Option J)
    (body : String) (h : parse body = none) :
    free_respond parse "json" body = Except.error "invalid json response body" := by
  simp [free_respond, h]

/-- C4 witness: a concrete invalid-JSON body makes `free` reject. -/
theorem free_json_invalid_body_rejects_witness :
    free_respond noParse "json" "not json at all"
      = Except.error "invalid json response body" :=
  free_json_invalid_body_rejects noParse "not json at all" rfl

/-- C5 counterexample: on a `txt` client, `trends` does not return the raw
text body for every response body: a body that is valid JSON (here the
empty JSON object) is parsed and returned as JSON instead. -/
theorem trends_txt_not_raw_text :
    (trends_respond emptyObjectParse "txt" "\x7b\x7d").1
      ≠ ResponseValue.text "\x7b\x7d" := by
  decide

/-- C5 (amended): on a `txt` client, `trends` takes the JSON branch (only
`xml` short-circuits to raw text): a body that parses is returned as the
parsed JSON value, and a body that does not parse is returned as raw text
together with the fallback warning.  `lists`, by contrast, does return the
raw text body under `txt`. -/
theorem trends_txt_uses_json_branch {J : Type} (parse : String → Option J)
    (body : String) :
    (∀ j, parse body = some j →
        trends_respond parse "txt" body = (ResponseValue.json j, []))
    ∧ (parse body = none →
        trends_respond parse "txt" body
          = (ResponseValue.text body, [jsonFallbackWarning]))
    ∧ lists_respond parse "txt" body = (ResponseValue.text body, []) := by
  refine ⟨fun j hj => ?_, fun h => ?_, ?_⟩ <;>
    simp [trends_respond, lists_respond, *]

/-- C5 witness: under `txt`, a valid-JSON body comes back parsed and an
invalid one comes back as raw text with the warning. -/
theorem trends_txt_uses_json_branch_witness :
    trends_respond emptyObjectParse "txt" "\x7b\x7d" = (ResponseValue.json 0, [])
    ∧ trends_respond emptyObjectParse "txt" "Error: invalid key"
        = (ResponseValue.text "Error: invalid key", [jsonFallbackWarning]) :=
  ⟨(trends_txt_uses_json_branch emptyObjectParse "\x7b\x7d").1 0 rfl,
   (trends_txt_uses_json_branch emptyObjectParse "Error: invalid key").2.1 rfl⟩

/-- C6: `companyToUrl` builds its URL on the `ctu` subdomain with endpoint
path `ctu1` and maps `companyName` to COMPANY and `tld` to TLD, but the
AMOUNT parameter is read from the params key `noMetaData`, not `amount`:
passing `amount` leaves AMOUNT out of the URL, while passing `noMetaData`
populates it. -/
theorem companyToUrl_amount_read_from_noMetaData :
    companyToUrlURL "json" "K" "Acme" [("amount", JSValue.num 5)]
      = "https://ctu.builtwith.com/ctu1/api.json?KEY=K&COMPANY=Acme"
    ∧ companyToUrlURL "json" "K" "Acme" [("noMetaData", JSValue.num 5)]
      = "https://ctu.builtwith.com/ctu1/api.json?KEY=K&COMPANY=Acme&AMOUNT=5"
    ∧ companyToUrlURL "json" "K" "Acme" [("tld", JSValue.str "com")]
      = "https://ctu.builtwith.com/ctu1/api.json?KEY=K&COMPANY=Acme&TLD=com" := by
  decide

/-- C9: constructing a client with responseFormat `txt` succeeds and emits
exactly one warning. -/
theorem BuiltWith_txt_warns_once (apiKey : String) :
    BuiltWith apiKey [("responseFormat", JSValue.str "txt")]
      = Except.ok ((apiKey, "txt"), [txtWarning]) := rfl

/-- C2: serialization omits exactly the `undefined`-valued keys and keeps
every other entry verbatim as a `key=value` pair in insertion order: the
empty mapping serializes to the empty string, an `undefined`-valued head
entry is dropped, a defined-valued head entry appears verbatim in front of
the serialization of the tail, and falsy-but-defined values (`false`, `0`,
the empty string) are kept. -/
theorem paramsObjToQueryString_omits_exactly_undefined :
    paramsObjToQueryString [] = ""
    ∧ (∀ k ps, paramsObjToQueryString ((k, JSValue.undef) :: ps)
        = paramsObjToQueryString ps)
    ∧ (∀ k v ps, v ≠ JSValue.undef →
        paramsObjToQueryString ((k, v) :: ps)
          = k ++ "=" ++ jsToString v
            ++ (if (ps.filter fun p => !(p.2 == JSValue.undef)).isEmpty then ""
                else "&" ++ paramsObjToQueryString ps))
    ∧ paramsObjToQueryString
        [("A", JSValue.bool false), ("B", JSValue.undef), ("C", JSValue.num 0),
         ("D", JSValue.str "")]
        = "A=false&C=0&D=" := by
  refine ⟨rfl, fun k ps => ?_, fun k v ps hv => ?_, by decide⟩
  · simp [paramsObjToQueryString]
  · have hb : (v == JSValue.undef) = false := beq_eq_false_iff_ne.mpr hv
    cases hfe : ps.filter fun p => !(p.2 == JSValue.undef) with
    | nil =>
        simp [paramsObjToQueryString, hb, hfe, joinAmp, String.append_empty]
    | cons q qs =>
        simp [paramsObjToQueryString, hb, hfe, joinAmp, String.append_assoc]

/-- C2 witness: a defined-valued head entry in front of an all-undefined
tail serializes to that entry alone. -/
theorem paramsObjToQueryString_omits_exactly_undefined_witness :
    paramsObjToQueryString [("LOOKUP", JSValue.str "a.com"), ("X", JSValue.undef)]
      = "LOOKUP" ++ "=" ++ jsToString (JSValue.str "a.com")
        ++ (if ([("X", JSValue.undef)].filter fun p => !(p.2 == JSValue.undef)).isEmpty
            then "" else "&" ++ paramsObjToQueryString [("X", JSValue.undef)]) :=
  paramsObjToQueryString_omits_exactly_undefined.2.2.1 "LOOKUP" (JSValue.str "a.com")
    [("X", JSValue.undef)] (by decide)

/-- An all-`undefined` params object serializes to the empty string. -/
theorem paramsObjToQueryString_all_undef (params : List (String × JSValue))
    (h : ∀ p ∈ params, p.2 = JSValue.undef) :
    paramsObjToQueryString params = "" := by
  have hfe : params.filter (fun p => !(p.2 == JSValue.undef)) = [] := by
    rw [List.filter_eq_nil_iff]
    simpa using h
  simp [paramsObjToQueryString, hfe, joinAmp]

/-- C7 counterexample: a mapping whose values are all `undefined` does not
yield the bare base URL: the emptiness guard runs before the `undefined`
filter, so a trailing `&` is appended. -/
theorem constructBuiltWithURL_all_undef_trailing_amp :
    constructBuiltWithURL "json" "K" "free1" [("A", JSValue.undef)] "api"
      = "https://api.builtwith.com/free1/api.json?KEY=K&"
    ∧ constructBuiltWithURL "json" "K" "free1" [("A", JSValue.undef)] "api"
      ≠ "https://api.builtwith.com/free1/api.json?KEY=K" := by
  decide

/-- C7 (amended): the built URL is the base followed by `&` and the joined
`key=value` pairs exactly when the mapping is non-empty BEFORE filtering
out `undefined` values; the empty mapping yields the bare base URL, and a
non-empty mapping whose values are all `undefined` yields the base URL
followed by a bare trailing `&`. -/
theorem constructBuiltWithURL_spec (fmt apiKey apiName subdomain : String)
    (params : List (String × JSValue)) :
    (params = [] → constructBuiltWithURL fmt apiKey apiName params subdomain
        = "https://" ++ subdomain ++ ".builtwith.com/" ++ apiName ++ "/api." ++ fmt
          ++ "?KEY=" ++ apiKey)
    ∧ (params ≠ [] → constructBuiltWithURL fmt apiKey apiName params subdomain
        = "https://" ++ subdomain ++ ".builtwith.com/" ++ apiName ++ "/api." ++ fmt
          ++ "?KEY=" ++ apiKey ++ "&" ++ paramsObjToQueryString params)
    ∧ (params ≠ [] → (∀ p ∈ params, p.2 = JSValue.undef) →
        constructBuiltWithURL fmt apiKey apiName params subdomain
          = "https://" ++ subdomain ++ ".builtwith.com/" ++ apiName ++ "/api." ++ fmt
            ++ "?KEY=" ++ apiKey ++ "&") := by
  refine ⟨fun h => ?_, fun h => ?_, fun h hall => ?_⟩
  · subst h
    simp [constructBuiltWithURL]
  · cases params with
    | nil => exact absurd rfl h
    | cons q qs =>
        simp [constructBuiltWithURL, String.append_assoc]
  · cases params with
    | nil => exact absurd rfl h
    | cons q qs =>
        simp [constructBuiltWithURL, paramsObjToQueryString_all_undef _ hall,
          String.append_empty, String.append_assoc]

/-- C7 witness: the empty mapping yields the bare base URL, and a mapping
holding one `undefined` value yields the base URL plus a trailing `&`. -/
theorem constructBuiltWithURL_spec_witness :
    constructBuiltWithURL "json" "K" "free1" [] "api"
      = "https://" ++ "api" ++ ".builtwith.com/" ++ "free1" ++ "/api." ++ "json"
        ++ "?KEY=" ++ "K"
    ∧ constructBuiltWithURL "json" "K" "free1" [("A", JSValue.undef)] "api"
      = "https://" ++ "api" ++ ".builtwith.com/" ++ "free1" ++ "/api." ++ "json"
        ++ "?KEY=" ++ "K" ++ "&" :=
  ⟨(constructBuiltWithURL_spec "json" "K" "free1" "api" []).1 rfl,
   (constructBuiltWithURL_spec "json" "K" "free1" "api" [("A", JSValue.undef)]).2.2
     (by decide) (by decide)⟩

/-- C8: constructing a client whose `responseFormat` is missing or not one
of `xml`, `json`, `txt` fails synchronously with the configuration error;
no client object (and hence no method, and no request URL) is ever
produced. -/
theorem BuiltWith_invalid_format_errors (apiKey : String)
    (mp : List (String × JSValue))
    (h : lodashGet mp "responseFormat" JSValue.undef
        ∉ VALID_RESPONSE_TYPES.map JSValue.str) :
    BuiltWith apiKey mp
      = Except.error
          ("Invalid 'responseFormat'. Valid format are 'xml', 'txt', and 'json'. You input "
            ++ jsToString (lodashGet mp "responseFormat" JSValue.undef)) := by
  have hb : (VALID_RESPONSE_TYPES.map JSValue.str).contains
      (lodashGet mp "responseFormat" JSValue.undef) = false := by
    rw [Bool.eq_false_iff]
    exact fun hc => h (List.elem_iff.mp hc)
  simp only [BuiltWith]
  rw [hb]
  simp

/-- C8 witness: `responseFormat: "yaml"` and a missing `responseFormat`
both fail with the configuration error. -/
theorem BuiltWith_invalid_format_errors_witness :
    BuiltWith "K" [("responseFormat", JSValue.str "yaml")]
      = Except.error
          ("Invalid 'responseFormat'. Valid format are 'xml', 'txt', and 'json'. You input "
            ++ jsToString (lodashGet [("responseFormat", JSValue.str "yaml")]
                "responseFormat" JSValue.undef))
    ∧ BuiltWith "K" []
      = Except.error
          ("Invalid 'responseFormat'. Valid format are 'xml', 'txt', and 'json'. You input "
            ++ jsToString (lodashGet [] "responseFormat" JSValue.undef)) :=
  ⟨BuiltWith_invalid_format_errors "K" [("responseFormat", JSValue.str "yaml")] (by decide),
   BuiltWith_invalid_format_errors "K" [] (by decide)⟩

/-- C10: a `domain` call with an empty options object still carries all
five optional flags in the built URL with the value `false`, in the order
HIDETEXT, HIDEDL, LIVEONLY, NOMETA, NOATTR after LOOKUP. -/
theorem domain_no_options_flags_false (fmt apiKey url : String) :
    domainURL fmt apiKey url []
      = "https://" ++ "api" ++ ".builtwith.com/" ++ "v14" ++ "/api." ++ fmt
        ++ "?KEY=" ++ apiKey
        ++ "&" ++ "LOOKUP" ++ "=" ++ url
        ++ "&" ++ "HIDETEXT" ++ "=" ++ "false"
        ++ "&" ++ "HIDEDL" ++ "=" ++ "false"
        ++ "&" ++ "LIVEONLY" ++ "=" ++ "false"
        ++ "&" ++ "NOMETA" ++ "=" ++ "false"
        ++ "&" ++ "NOATTR" ++ "=" ++ "false" := by
  simp [domainURL, constructBuiltWithURL, paramsObjToQueryString, lodashGet,
    jsToString, joinAmp, String.append_assoc]
  rfl
